import Mathlib

/-!
Verification of the AFHArchive replication core against its specification.

The definitions below are shallow embeddings of the Python source:

* `app/utils/mirror_utils.py`  (`trigger_mirror_sync`)
* `app/routes/mirror_api.py`   (`sync_complete`, `report_progress`, `perform_sync`)
* `app/utils/rate_limiter.py`  (`RateLimiter`, `BandwidthLimitedFile`)
* `app/routes/api.py`          (chunked upload endpoints)

Machine integers do not occur on the modelled paths; time and byte rates are
modelled as rationals, byte strings as lists of naturals, and the MD5 digest
as an abstract function parameter (its value is only ever compared for
equality in the modelled code).
-/

namespace AFHArchive

/-! ## Replica state machine

Model of the per-`FileReplica` status field (`app/models.py`, line 176:
status is one of pending, syncing, synced, error) and of the three
operations that touch it:

* `trigger_mirror_sync` in `app/utils/mirror_utils.py` (lines 54-98):
  for each target mirror it first sets `replica.status = 'pending'` and
  commits (lines 61-62), then performs the dispatch POST; on HTTP 200 it
  sets `'syncing'`, on any other response `'error'` plus an error message
  (lines 83-90), and on a raised exception `'error'` with the exception
  text (lines 94-98).  Both the initial dispatch and a manual re-trigger
  go through this same function.
* `report_progress` in `app/routes/mirror_api.py` (lines 32-55): emits a
  socket event only; it never touches the replica row.
* `sync_complete` in `app/routes/mirror_api.py` (lines 57-80): writes the
  status reported by the mirror client into the replica row.  The mirror
  client (`perform_sync`) only ever reports `'synced'` or `'error'`, which
  is also what the code comment on line 68 documents.
-/

inductive ReplicaStatus where
  | pending
  | syncing
  | synced
  | error
deriving DecidableEq, Repr

/-- Outcome of the dispatch POST in `trigger_mirror_sync`. -/
inductive DispatchOutcome where
  | ok200
  | httpRejected (code : Nat) (text : String)
  | exceptionRaised (msg : String)
deriving DecidableEq, Repr

/-- Status payload of a `sync_complete` callback, as sent by `perform_sync`. -/
inductive ReportStatus where
  | reportSynced
  | reportError (msg : String)
deriving DecidableEq, Repr

/-- Replica row: the status column together with the error-message column. -/
structure Replica where
  status : ReplicaStatus
  errorMessage : Option String
deriving DecidableEq, Repr

/-- Per-replica effect of one iteration of the dispatch loop in
`trigger_mirror_sync`: the reset to `'pending'` is committed first
(lines 61-62), then the dispatch outcome decides the second committed
state (lines 83-98).  Returns the committed states in commit order. -/
def dispatchReplica (r : Replica) (o : DispatchOutcome) : List Replica :=
  let r0 : Replica := { r with status := ReplicaStatus.pending }
  let r1 : Replica :=
    match o with
    | DispatchOutcome.ok200 => { r0 with status := ReplicaStatus.syncing }
    | DispatchOutcome.httpRejected code text =>
        { r0 with status := ReplicaStatus.error,
                  errorMessage := some ("Mirror rejected job: " ++ toString code ++ " - " ++ text) }
    | DispatchOutcome.exceptionRaised msg =>
        { r0 with status := ReplicaStatus.error, errorMessage := some msg }
  [r0, r1]

/-- Effect of a `sync_complete` callback (mirror_api.py lines 71-78): the
replica row takes the reported status; the error-message column takes the
payload message, which is null on success. -/
def syncCompleteReplica (r : Replica) (rep : ReportStatus) : Replica :=
  match rep with
  | ReportStatus.reportSynced => { r with status := ReplicaStatus.synced, errorMessage := none }
  | ReportStatus.reportError m => { r with status := ReplicaStatus.error, errorMessage := some m }

/-- The operations of the protocol that can touch one replica row.
`dispatch` covers both the initial sync dispatch and a manual re-trigger,
which call the same `trigger_mirror_sync` code. -/
inductive ReplicaEvent where
  | dispatch (o : DispatchOutcome)
  | progress (percent : Nat)
  | syncComplete (rep : ReportStatus)
deriving DecidableEq, Repr

def ReplicaEvent.isDispatch : ReplicaEvent → Bool
  | ReplicaEvent.dispatch _ => true
  | _ => false

/-- Committed replica states produced by one event (empty for a progress
report, which never writes the replica row). -/
def applyEvent (r : Replica) : ReplicaEvent → List Replica
  | ReplicaEvent.dispatch o => dispatchReplica r o
  | ReplicaEvent.progress _ => []
  | ReplicaEvent.syncComplete rep => [syncCompleteReplica r rep]

/-- Committed replica states, in order, produced by a sequence of events. -/
def stepsFrom (r : Replica) : List ReplicaEvent → List Replica
  | [] => []
  | e :: rest =>
      let tr := applyEvent r e
      tr ++ stepsFrom (tr.getLastD r) rest

/-- Full sequence of statuses a replica row passes through, starting from
its current state, under a sequence of events. -/
def statusTrace (r : Replica) (evs : List ReplicaEvent) : List ReplicaStatus :=
  (r :: stepsFrom r evs).map Replica.status

/-- Adjacent pairs of a status sequence: the transitions it exhibits. -/
def transitions : List ReplicaStatus → List (ReplicaStatus × ReplicaStatus)
  | [] => []
  | [_] => []
  | a :: b :: rest => (a, b) :: transitions (b :: rest)

/-! ## Bandwidth arbiter

Model of `app/utils/rate_limiter.py`.  `RateLimiter` keeps a per-process
dict `local_active_downloads` mapping a download id to its start time, a
shared cross-process counter `active_count`, and the last configured
`total_bandwidth`.  `BandwidthLimitedFile.read` throttles with a sleep
computed from the allocated speed.  Times, rates and byte counts are
rationals.
-/

/-- State of one `RateLimiter` instance: the process-local dict of active
downloads (id, start time), the shared active counter, and the last
configured total bandwidth.  The counter is `multiprocessing.Value('i', 0)`
(line 110), a signed 32-bit C int on which ctypes assignment wraps
silently; it is modelled as an integer on which every write that can
leave the 32-bit range applies `wrap32` explicitly. -/
structure RateLimiterState where
  localActiveDownloads : List (String × ℚ)
  activeCount : ℤ
  totalBandwidth : ℚ
deriving DecidableEq, Repr

/-- `RateLimiter.__init__`: empty dict, shared counter zero. -/
def rlInit : RateLimiterState :=
  { localActiveDownloads := [], activeCount := 0, totalBandwidth := 0 }

/-- Python dict assignment `d[k] = v`: overwrite the binding if the key is
present, append it otherwise. -/
def dictInsert (k : String) (v : ℚ) : List (String × ℚ) → List (String × ℚ)
  | [] => [(k, v)]
  | (k', v') :: rest => if k' = k then (k, v) :: rest else (k', v') :: dictInsert k v rest

/-- Wrapping of a signed 32-bit C int: the value ctypes stores for `x`. -/
def wrap32 (x : ℤ) : ℤ := (x + 2147483648) % 4294967296 - 2147483648

/-- The guarded decrement used by `remove_download` and
`cleanup_old_entries`: `if self.active_count.value > 0: value -= 1`.
Decrementing a positive signed 32-bit value cannot leave the 32-bit
range, so no wrap arises on this operation. -/
def guardedDec (c : ℤ) : ℤ := if 0 < c then c - 1 else c

/-- `RateLimiter.create_limited_file` (lines 112-133): records the new
download id locally, overwrites the global bandwidth setting, and runs
the unguarded `self.active_count.value += 1` (line 130), which as a
ctypes int32 assignment wraps past the maximum instead of failing. -/
def createLimitedFile (s : RateLimiterState) (downloadId : String) (startTime : ℚ)
    (totalBandwidthBps : ℚ) : RateLimiterState :=
  { localActiveDownloads := dictInsert downloadId startTime s.localActiveDownloads,
    activeCount := wrap32 (s.activeCount + 1),
    totalBandwidth := totalBandwidthBps }

/-- `RateLimiter.remove_download` (lines 151-159): only if the id is still
in the local dict, delete it and apply the guarded decrement to the shared
counter; otherwise do nothing at all. -/
def removeDownload (s : RateLimiterState) (downloadId : String) : RateLimiterState :=
  if downloadId ∈ s.localActiveDownloads.map Prod.fst then
    { s with
      localActiveDownloads := s.localActiveDownloads.filter (fun p => p.1 != downloadId),
      activeCount := guardedDec s.activeCount }
  else s

/-- `RateLimiter.cleanup_old_entries` (lines 171-186): delete every local
entry older than 3600 seconds and apply one guarded decrement per deleted
entry. -/
def cleanupOldEntries (s : RateLimiterState) (now : ℚ) : RateLimiterState :=
  let stale := s.localActiveDownloads.filter (fun p => decide (3600 < now - p.2))
  { s with
    localActiveDownloads := s.localActiveDownloads.filter (fun p => !decide (3600 < now - p.2)),
    activeCount := stale.foldl (fun c _ => guardedDec c) s.activeCount }

/-- The operations that touch a `RateLimiter`. -/
inductive RLOp where
  | create (downloadId : String) (startTime : ℚ) (totalBandwidthBps : ℚ)
  | remove (downloadId : String)
  | cleanup (now : ℚ)
deriving DecidableEq, Repr

def RLOp.isCreate : RLOp → Bool
  | RLOp.create _ _ _ => true
  | _ => false

def rlStep (s : RateLimiterState) : RLOp → RateLimiterState
  | RLOp.create id t bw => createLimitedFile s id t bw
  | RLOp.remove id => removeDownload s id
  | RLOp.cleanup now => cleanupOldEntries s now

/-- State after a sequence of operations on a fresh `RateLimiter`. -/
def rlRun (ops : List RLOp) : RateLimiterState := ops.foldl rlStep rlInit

/-- `RateLimiter.get_allocated_speed` (lines 135-149): the shared counter
is read at the call; a non-positive count falls back to the full cap,
otherwise the cap is divided equally. -/
def getAllocatedSpeed (totalBandwidth : ℚ) (activeCount : ℤ) : ℚ :=
  if activeCount ≤ 0 then totalBandwidth else totalBandwidth / (activeCount : ℚ)

/-- Sleep performed by `BandwidthLimitedFile.read` (lines 18-42) for a
non-empty chunk: with a positive allocated speed, if the time since the
previous read is shorter than `len(data) / allocated_speed`, sleep for the
difference. -/
def readSleepTime (allocatedSpeed : ℚ) (dataLen : ℚ) (lastReadTime currentTime : ℚ) : ℚ :=
  if 0 < allocatedSpeed then
    let timeSinceLast := currentTime - lastReadTime
    let expectedTime := dataLen / allocatedSpeed
    if timeSinceLast < expectedTime then expectedTime - timeSinceLast else 0
  else 0

/-! ## Chunked fetcher: connection retry loop

Model of the retry loop at the start of `perform_sync`
(`app/routes/mirror_api.py`, lines 113-142): `max_retries = 5`; a 200
response breaks out of the loop; a 502/503/504 response falls through with
a warning; any other status raises inside the `try`, whose handler also
catches network errors; every failure increments `retries` and, while
`retries < max_retries` still holds, sleeps `5 * retries` seconds.  After
the loop, anything but a 200 response raises the terminal failure.
-/

/-- Outcome of one `requests.get` attempt. -/
inductive AttemptOutcome where
  | status (code : Nat)
  | netError (msg : String)
deriving DecidableEq, Repr

/-- Only a 200 response breaks the retry loop; every other outcome, HTTP
or exception, takes the retry path. -/
def isOk200 : AttemptOutcome → Bool
  | AttemptOutcome.status 200 => true
  | _ => false

/-- Result of the connection phase: attempts actually made, the sleeps
performed between attempts (in seconds, in order), and whether a 200
response was obtained. -/
structure ConnectResult where
  attemptsMade : Nat
  sleeps : List Nat
  success : Bool
deriving DecidableEq, Repr

/-- The retry loop, with `r` the current value of `retries` and the fuel
`5 - r` enforcing the `while retries < max_retries` guard; the base case
is reached exactly when all five attempts have failed, after which the
code raises the terminal error. -/
def connectAux (att : Nat → AttemptOutcome) : Nat → Nat → ConnectResult
  | _, 0 => { attemptsMade := 5, sleeps := [], success := false }
  | r, fuel + 1 =>
      if isOk200 (att r) then { attemptsMade := r + 1, sleeps := [], success := true }
      else
        let rest := connectAux att (r + 1) fuel
        { attemptsMade := rest.attemptsMade,
          sleeps := (if r + 1 < 5 then [5 * (r + 1)] else []) ++ rest.sleeps,
          success := rest.success }

/-- The whole connection phase of `perform_sync`: `retries = 0`,
`max_retries = 5`. -/
def connectLoop (att : Nat → AttemptOutcome) : ConnectResult := connectAux att 0 5

/-! ## Chunked fetcher: verification phase

Model of the tail of `perform_sync` (`app/routes/mirror_api.py`, lines
176-244): after the byte stream completes, the MD5 of the local file is
recomputed; a mismatch raises, and the exception handler reports `error`
with the exception text to the primary and removes the partial file; a
match reports `synced` and then creates or updates the local `Upload`
catalog row with the job metadata and status `'approved'`.  The MD5
function itself is a parameter of the model: the code only compares its
hex digest for equality.
-/

/-- Local catalog row written by `perform_sync` on success. -/
structure LocalUploadRec where
  fileId : Nat
  filename : String
  md5Hash : String
  fileSize : Nat
  uploadStatus : String
deriving DecidableEq, Repr

/-- Outcome of the verification phase. -/
structure SyncVerifyResult where
  reported : ReportStatus
  fileKept : Bool
  localCatalog : Option LocalUploadRec
deriving DecidableEq, Repr

/-- Verification phase of `perform_sync`, starting from the fully
downloaded byte stream. -/
def syncVerify (md5hex : List Nat → String) (jobFileId : Nat) (jobFilename : String)
    (declaredMd5 : String) (declaredSize : Nat) (localBytes : List Nat)
    (prevCatalog : Option LocalUploadRec) : SyncVerifyResult :=
  let calculated := md5hex localBytes
  if calculated ≠ declaredMd5 then
    { reported := ReportStatus.reportError
        ("MD5 mismatch. Expected: " ++ declaredMd5 ++ ", Got: " ++ calculated ++
         ". Expected Size: " ++ toString declaredSize ++
         ", Got Size: " ++ toString localBytes.length),
      fileKept := false,
      localCatalog := prevCatalog }
  else
    { reported := ReportStatus.reportSynced,
      fileKept := true,
      localCatalog := some
        { fileId := jobFileId, filename := jobFilename, md5Hash := declaredMd5,
          fileSize := declaredSize, uploadStatus := "approved" } }

/-! ## Chunked upload assembler

Model of the chunked upload endpoints in `app/routes/api.py`.

`api.py` defines `complete_chunked_upload` twice.  The first definition
(lines 159-281) carries no route decorator: it assembles on a background
thread, auto-rejects duplicates by MD5, and writes a
`<uploadId>_status.json` file for the `/upload-status/<id>` poll.  The
second definition (lines 344-451) is the one actually registered on
`POST /upload-complete`: it assembles synchronously inside the request,
performs no duplicate check, and never writes a status file.  Both are
embedded below; `completeChunkedUpload` is the registered route.

A session's staging directory `chunks/<uploadId>` is created by the first
`upload_chunk` call (line 321) and removed by `cleanup_chunks_dir`;
`complete` returns 404 `'Chunks not found'` when it does not exist
(lines 378-379).
-/

inductive UploadStatus where
  | pending
  | approved
  | rejected
deriving DecidableEq, Repr

/-- Row of the primary `Upload` catalog (`app/models.py`); the status
column defaults to `'pending'`. -/
structure UploadRec where
  filename : String
  originalFilename : String
  fileSize : Nat
  md5Hash : String
  uploadStatus : UploadStatus
  rejectionReason : Option String
deriving DecidableEq, Repr

/-- Staging state of one chunked upload session: whether the
`chunks/<uploadId>` directory exists, and the chunk files present in it,
keyed by index. -/
structure ChunkSession where
  dirExists : Bool
  chunks : List (Nat × List Nat)
deriving DecidableEq, Repr

/-- A session that has received nothing; `upload-init` creates no
directory. -/
def emptySession : ChunkSession := { dirExists := false, chunks := [] }

/-- `upload_chunk` (lines 297-342): `os.makedirs(..., exist_ok=True)`
then save the chunk under its zero-padded index, overwriting any previous
fragment with the same index. -/
def uploadChunk (s : ChunkSession) (index : Nat) (bytes : List Nat) : ChunkSession :=
  { dirExists := true,
    chunks := (s.chunks.filter (fun p => p.1 != index)) ++ [(index, bytes)] }

/-- The missing-chunk scan of `complete` (lines 382-387): the indices `i`
in `0 .. totalChunks - 1` whose chunk file does not exist. -/
def missingChunks (s : ChunkSession) (totalChunks : Nat) : List Nat :=
  (List.range totalChunks).filter (fun i => !(s.chunks.map Prod.fst).contains i)

/-- Chunk concatenation in strict index order (lines 401-410). -/
def assembleBytes (s : ChunkSession) (totalChunks : Nat) : List Nat :=
  (List.range totalChunks).foldl (fun acc i => acc ++ ((s.chunks.lookup i).getD [])) []

/-- Response bodies the complete endpoints can produce. -/
inductive CompleteResponse where
  | chunksNotFound
  | missingChunksError (missing : List Nat)
  | integrityError
  | duplicateRejected
  | accepted (uploadFilename : String)
deriving DecidableEq, Repr

/-- Joint effect of a complete call on the observable state. -/
structure CompleteEffect where
  response : CompleteResponse
  catalog : List UploadRec
  session : ChunkSession
  assembledFileKept : Bool
  statusFileWritten : Option CompleteResponse
deriving DecidableEq, Repr

/-- The registered `POST /upload-complete` route (`api.py` lines
344-451), from the chunks-directory check onward: scan for missing
chunks, assemble, hash, optionally verify against the client hash, then
insert the catalog row with the default `'pending'` status.  There is no
duplicate check on this path and no status file is ever written. -/
def completeChunkedUpload (md5hex : List Nat → String) (catalog : List UploadRec)
    (s : ChunkSession) (totalChunks : Nat) (originalFilename uniqueFilename : String)
    (fileHash : String) : CompleteEffect :=
  if s.dirExists = false then
    { response := CompleteResponse.chunksNotFound, catalog := catalog, session := s,
      assembledFileKept := false, statusFileWritten := none }
  else
    let missing := missingChunks s totalChunks
    if missing ≠ [] then
      { response := CompleteResponse.missingChunksError missing, catalog := catalog,
        session := s, assembledFileKept := false, statusFileWritten := none }
    else
      let bytes := assembleBytes s totalChunks
      let md5 := md5hex bytes
      if fileHash ≠ "" ∧ md5 ≠ fileHash then
        { response := CompleteResponse.integrityError, catalog := catalog,
          session := emptySession, assembledFileKept := false, statusFileWritten := none }
      else
        { response := CompleteResponse.accepted uniqueFilename,
          catalog := catalog ++
            [{ filename := uniqueFilename, originalFilename := originalFilename,
               fileSize := bytes.length, md5Hash := md5,
               uploadStatus := UploadStatus.pending, rejectionReason := none }],
          session := emptySession, assembledFileKept := true, statusFileWritten := none }

/-- The rejection reason recorded by the unregistered asynchronous
implementation for a duplicate (line 236). -/
def duplicateReason : String :=
  "Thank you for your contribution, this file has already been uploaded and is not needed."

/-- The unregistered first definition of `complete_chunked_upload`
(`api.py` lines 159-281), body of its `process_upload_async`: assemble,
hash, reject a duplicate MD5 (deleting the assembled file but still
recording a rejected row), otherwise verify the client hash, otherwise
insert a pending row; in every case the terminal result is written to the
`<uploadId>_status.json` file for the poll endpoint. -/
def processUploadAsync (md5hex : List Nat → String) (catalog : List UploadRec)
    (s : ChunkSession) (totalChunks : Nat) (originalFilename uniqueFilename : String)
    (fileHash : String) : CompleteEffect :=
  let bytes := assembleBytes s totalChunks
  let md5 := md5hex bytes
  if catalog.any (fun u => u.md5Hash == md5) then
    { response := CompleteResponse.duplicateRejected,
      catalog := catalog ++
        [{ filename := uniqueFilename, originalFilename := originalFilename,
           fileSize := bytes.length, md5Hash := md5,
           uploadStatus := UploadStatus.rejected, rejectionReason := some duplicateReason }],
      session := emptySession, assembledFileKept := false,
      statusFileWritten := some CompleteResponse.duplicateRejected }
  else if fileHash ≠ "" ∧ md5 ≠ fileHash then
    { response := CompleteResponse.integrityError, catalog := catalog,
      session := emptySession, assembledFileKept := false,
      statusFileWritten := some CompleteResponse.integrityError }
  else
    { response := CompleteResponse.accepted uniqueFilename,
      catalog := catalog ++
        [{ filename := uniqueFilename, originalFilename := originalFilename,
           fileSize := bytes.length, md5Hash := md5,
           uploadStatus := UploadStatus.pending, rejectionReason := none }],
      session := emptySession, assembledFileKept := true,
      statusFileWritten := some (CompleteResponse.accepted uniqueFilename) }

/-- `GET /upload-status/<id>` (`api.py` lines 284-294): with no status
file on disk answer `processing`; otherwise answer the file content and
delete the file.  Returns the response and the status file afterwards. -/
inductive PollResponse where
  | processing
  | result (r : CompleteResponse)
deriving DecidableEq, Repr

def uploadStatusPoll (statusFile : Option CompleteResponse) :
    PollResponse × Option CompleteResponse :=
  match statusFile with
  | none => (PollResponse.processing, none)
  | some r => (PollResponse.result r, none)

/-! ## Theorems: replica state machine -/

/-- Helper: the second component of a transition is drawn from the tail of
the status sequence. -/
lemma transitions_mem_tail :
    ∀ {l : List ReplicaStatus} {a b : ReplicaStatus},
      (a, b) ∈ transitions l → b ∈ l.tail := by
  intro l
  induction l with
  | nil => intro a b h; simp [transitions] at h
  | cons x rest ih =>
    cases rest with
    | nil => intro a b h; simp [transitions] at h
    | cons y rest2 =>
      intro a b h
      simp only [transitions, List.mem_cons, Prod.mk.injEq] at h
      rcases h with ⟨_, hb⟩ | h2
      · simp [hb]
      · have hmem := ih h2
        simp only [List.tail_cons] at hmem ⊢
        exact List.mem_cons_of_mem y hmem

/-- Helper: with no dispatch among the events, every state a replica row
is driven through is written either by a progress report (which writes
nothing) or by a completion callback, hence has status synced or error. -/
lemma stepsFrom_no_dispatch_status (evs : List ReplicaEvent) :
    ∀ (r : Replica), (∀ e ∈ evs, e.isDispatch = false) →
      ∀ x ∈ stepsFrom r evs,
        x.status = ReplicaStatus.synced ∨ x.status = ReplicaStatus.error := by
  induction evs with
  | nil => intro r _ x hx; simp [stepsFrom] at hx
  | cons e rest ih =>
    intro r h x hx
    have he : e.isDispatch = false := h e (List.mem_cons_self e rest)
    have hrest : ∀ e' ∈ rest, e'.isDispatch = false :=
      fun e' h' => h e' (List.mem_cons_of_mem e h')
    cases e with
    | dispatch o => simp [ReplicaEvent.isDispatch] at he
    | progress p =>
      simp only [stepsFrom, applyEvent, List.nil_append, List.getLastD_nil] at hx
      exact ih r hrest x hx
    | syncComplete rep =>
      simp only [stepsFrom, applyEvent, List.cons_append, List.nil_append,
        List.getLastD_cons, List.getLastD_nil, List.mem_cons] at hx
      rcases hx with rfl | hx
      · cases rep <;> simp [syncCompleteReplica]
      · exact ih (syncCompleteReplica r rep) hrest x hx

/-- C1 counterexample: the claim that no sequence of operations ever
produces a transition from synced back to pending is false: dispatching a
sync job (in particular, re-triggering one) on a replica whose status is
synced first commits the status pending (mirror_utils.py line 61), an
explicit synced-to-pending transition, before moving on to syncing. -/
theorem replica_synced_to_pending_on_redispatch :
    (ReplicaStatus.synced, ReplicaStatus.pending) ∈
      transitions (statusTrace { status := ReplicaStatus.synced, errorMessage := none }
        [ReplicaEvent.dispatch DispatchOutcome.ok200]) := by decide

/-- C1 (amended): sync dispatch unconditionally resets a replica to
pending before moving it to syncing or error, so a re-dispatch of a
synced replica does pass through pending; but among the remaining
operations (progress report, mirror completion callback), no sequence
ever produces a transition from synced back to pending or to syncing. -/
theorem replica_no_regression_without_dispatch (r : Replica) (evs : List ReplicaEvent)
    (h : ∀ e ∈ evs, e.isDispatch = false) :
    (ReplicaStatus.synced, ReplicaStatus.pending) ∉ transitions (statusTrace r evs) ∧
    (ReplicaStatus.synced, ReplicaStatus.syncing) ∉ transitions (statusTrace r evs) := by
  have key : ∀ b, (ReplicaStatus.synced, b) ∈ transitions (statusTrace r evs) →
      b = ReplicaStatus.synced ∨ b = ReplicaStatus.error := by
    intro b hmem
    have hb := transitions_mem_tail hmem
    simp only [statusTrace, List.map_cons, List.tail_cons, List.mem_map] at hb
    rcases hb with ⟨x, hx, rfl⟩
    exact stepsFrom_no_dispatch_status evs r h x hx
  constructor
  · intro hmem
    rcases key _ hmem with hc | hc <;> exact absurd hc (by decide)
  · intro hmem
    rcases key _ hmem with hc | hc <;> exact absurd hc (by decide)

/-- C1 witness: from the synced state, a progress report followed by an
error completion callback exhibits no synced-to-pending transition. -/
theorem replica_no_regression_without_dispatch_witness :
    (ReplicaStatus.synced, ReplicaStatus.pending) ∉
      transitions (statusTrace { status := ReplicaStatus.synced, errorMessage := none }
        [ReplicaEvent.progress 50,
         ReplicaEvent.syncComplete (ReportStatus.reportError "io failure")]) :=
  (replica_no_regression_without_dispatch
    { status := ReplicaStatus.synced, errorMessage := none }
    [ReplicaEvent.progress 50,
     ReplicaEvent.syncComplete (ReportStatus.reportError "io failure")]
    (by decide)).1

/-- C6: a dispatch commits pending and then exactly one further state:
syncing when the mirror answered HTTP 200, and error otherwise, in which
case the row also carries an error message and the replica never entered
syncing. -/
theorem dispatch_failure_never_syncing (r : Replica) (o : DispatchOutcome) :
    (dispatchReplica r o).map Replica.status
      = [ReplicaStatus.pending,
         if o = DispatchOutcome.ok200 then ReplicaStatus.syncing else ReplicaStatus.error] ∧
    (o ≠ DispatchOutcome.ok200 →
      ReplicaStatus.syncing ∉ (dispatchReplica r o).map Replica.status ∧
      ((dispatchReplica r o).getLastD r).errorMessage.isSome = true) := by
  cases o <;> simp [dispatchReplica]

/-- C6 witness: a 503 dispatch response drives the replica through
pending directly to error, never through syncing, and records a
message. -/
theorem dispatch_failure_never_syncing_witness :
    (dispatchReplica { status := ReplicaStatus.pending, errorMessage := none }
        (DispatchOutcome.httpRejected 503 "busy")).map Replica.status
      = [ReplicaStatus.pending, ReplicaStatus.error] ∧
    ReplicaStatus.syncing ∉
      (dispatchReplica { status := ReplicaStatus.pending, errorMessage := none }
        (DispatchOutcome.httpRejected 503 "busy")).map Replica.status := by
  have h := dispatch_failure_never_syncing
    { status := ReplicaStatus.pending, errorMessage := none }
    (DispatchOutcome.httpRejected 503 "busy")
  have h2 := h.2 (by decide)
  exact ⟨by simpa using h.1, h2.1⟩

/-! ## Theorems: bandwidth arbiter -/

/-- C2: on every read of an active lease the allocated rate is the
configured total cap divided by the current number of active leases, and
the throttling sleep is exactly long enough since the previous read that
the bytes returned do not exceed that share: the chunk length never
exceeds the share times the elapsed time, and any shorter sleep would
have exceeded it. -/
theorem read_fair_share (total : ℚ) (count : ℤ) (dataLen lastReadTime currentTime : ℚ)
    (hcount : 1 ≤ count) (htotal : 0 < total) (hdata : 0 < dataLen)
    (horder : lastReadTime ≤ currentTime) :
    getAllocatedSpeed total count = total / (count : ℚ) ∧
    0 ≤ readSleepTime (getAllocatedSpeed total count) dataLen lastReadTime currentTime ∧
    dataLen ≤ getAllocatedSpeed total count *
      (currentTime + readSleepTime (getAllocatedSpeed total count) dataLen lastReadTime currentTime
        - lastReadTime) ∧
    ∀ s : ℚ, 0 ≤ s →
      s < readSleepTime (getAllocatedSpeed total count) dataLen lastReadTime currentTime →
      getAllocatedSpeed total count * (currentTime + s - lastReadTime) < dataLen := by
  have hcq : (0 : ℚ) < (count : ℚ) := by exact_mod_cast lt_of_lt_of_le Int.zero_lt_one hcount
  have halloc_eq : getAllocatedSpeed total count = total / (count : ℚ) := by
    unfold getAllocatedSpeed
    rw [if_neg (by omega)]
  have halloc_pos : 0 < total / (count : ℚ) := div_pos htotal hcq
  rw [halloc_eq]
  refine ⟨rfl, ?_, ?_, ?_⟩
  · unfold readSleepTime
    rw [if_pos halloc_pos]
    dsimp only
    split <;> [linarith; linarith]
  · unfold readSleepTime
    rw [if_pos halloc_pos]
    dsimp only
    split
    · rename_i hlt
      have hexp : total / (count : ℚ) * (dataLen / (total / (count : ℚ))) = dataLen :=
        mul_div_cancel₀ dataLen (ne_of_gt halloc_pos)
      have harr : currentTime + (dataLen / (total / (count : ℚ)) - (currentTime - lastReadTime))
          - lastReadTime = dataLen / (total / (count : ℚ)) := by ring
      rw [harr, hexp]
    · rename_i hge
      push_neg at hge
      have harr : currentTime + 0 - lastReadTime = currentTime - lastReadTime := by ring
      rw [harr]
      calc dataLen = total / (count : ℚ) * (dataLen / (total / (count : ℚ))) :=
            (mul_div_cancel₀ dataLen (ne_of_gt halloc_pos)).symm
        _ ≤ total / (count : ℚ) * (currentTime - lastReadTime) := by
            exact mul_le_mul_of_nonneg_left hge (le_of_lt halloc_pos)
  · intro s hs hslt
    unfold readSleepTime at hslt
    rw [if_pos halloc_pos] at hslt
    dsimp only at hslt
    by_cases hcase : currentTime - lastReadTime < dataLen / (total / (count : ℚ))
    · rw [if_pos hcase] at hslt
      have hlt2 : currentTime + s - lastReadTime < dataLen / (total / (count : ℚ)) := by
        linarith
      have := mul_lt_mul_of_pos_left hlt2 halloc_pos
      calc total / (count : ℚ) * (currentTime + s - lastReadTime)
          < total / (count : ℚ) * (dataLen / (total / (count : ℚ))) := this
        _ = dataLen := mul_div_cancel₀ dataLen (ne_of_gt halloc_pos)
    · rw [if_neg hcase] at hslt
      exact absurd hslt (not_lt_of_le hs)

/-- C2 witness: a 10-bytes-per-second cap shared by two leases allocates
5 bytes per second; a 5-byte chunk read immediately after the previous
read sleeps a full second. -/
theorem read_fair_share_witness :
    getAllocatedSpeed 10 2 = 10 / (2 : ℚ) ∧
    (5 : ℚ) ≤ getAllocatedSpeed 10 2 * (0 + readSleepTime (getAllocatedSpeed 10 2) 5 0 0 - 0) := by
  have h := read_fair_share 10 2 5 0 0 (by norm_num) (by norm_num) (by norm_num) (by norm_num)
  exact ⟨h.1, h.2.2.1⟩

/-- C9: releasing a lease is idempotent: a second `remove_download` after
the lease has already been removed changes neither the local dict of
tracked leases nor the shared active counter. -/
theorem remove_download_idempotent (s : RateLimiterState) (downloadId : String) :
    removeDownload (removeDownload s downloadId) downloadId = removeDownload s downloadId := by
  by_cases h : downloadId ∈ s.localActiveDownloads.map Prod.fst
  · have hgone : downloadId ∉
        ((s.localActiveDownloads.filter (fun p => p.1 != downloadId)).map Prod.fst) := by
      intro hmem
      rcases List.mem_map.mp hmem with ⟨p, hp, hfst⟩
      have := List.of_mem_filter hp
      rw [bne_iff_ne] at this
      exact this hfst
    unfold removeDownload
    rw [if_pos h]
    rw [if_neg hgone]
  · unfold removeDownload
    rw [if_neg h, if_neg h]

/-- Helper: the guarded decrement never drives a non-negative counter
negative. -/
lemma guardedDec_nonneg {c : ℤ} (h : 0 ≤ c) : 0 ≤ guardedDec c := by
  unfold guardedDec
  split <;> omega

/-- Helper: the guarded decrement removes at most one. -/
lemma guardedDec_ge (c : ℤ) : c - 1 ≤ guardedDec c := by
  unfold guardedDec
  split <;> omega

/-- Helper: folding the guarded decrement keeps a non-negative counter
non-negative. -/
lemma foldl_guardedDec_nonneg {α : Type} (l : List α) :
    ∀ c : ℤ, 0 ≤ c → 0 ≤ l.foldl (fun c _ => guardedDec c) c := by
  induction l with
  | nil => intro c h; simpa using h
  | cons x rest ih =>
    intro c h
    simpa using ih (guardedDec c) (guardedDec_nonneg h)

/-- Helper: folding the guarded decrement removes at most one per list
element. -/
lemma foldl_guardedDec_ge {α : Type} (l : List α) :
    ∀ c : ℤ, c - l.length ≤ l.foldl (fun c _ => guardedDec c) c := by
  induction l with
  | nil => intro c; simp
  | cons x rest ih =>
    intro c
    have h1 := ih (guardedDec c)
    have h2 := guardedDec_ge c
    simp only [List.foldl_cons, List.length_cons]
    push_cast
    push_cast at h1
    omega

/-- Helper: the guarded decrement never increases the counter. -/
lemma guardedDec_le (c : ℤ) : guardedDec c ≤ c := by
  unfold guardedDec
  split <;> omega

/-- Helper: folding the guarded decrement never increases the counter. -/
lemma foldl_guardedDec_le {α : Type} (l : List α) :
    ∀ c : ℤ, l.foldl (fun c _ => guardedDec c) c ≤ c := by
  induction l with
  | nil => intro c; simp
  | cons x rest ih =>
    intro c
    have h1 := ih (guardedDec c)
    have h2 := guardedDec_le c
    simp only [List.foldl_cons]
    omega

/-- Helper: a value already in signed 32-bit range is stored as is. -/
lemma wrap32_eq_self {x : ℤ} (h1 : -2147483648 ≤ x) (h2 : x < 2147483648) :
    wrap32 x = x := by
  unfold wrap32
  omega

/-- Helper: every non-acquisition operation preserves non-negativity of
the shared counter, because both decrement sites are guarded. -/
lemma rlStep_counter_nonneg (s : RateLimiterState) (op : RLOp)
    (hop : op.isCreate = false)
    (h : 0 ≤ s.activeCount) : 0 ≤ (rlStep s op).activeCount := by
  cases op with
  | create id t bw => simp [RLOp.isCreate] at hop
  | remove id =>
    simp only [rlStep, removeDownload]
    split
    · exact guardedDec_nonneg h
    · exact h
  | cleanup now =>
    simp only [rlStep, cleanupOldEntries]
    exact foldl_guardedDec_nonneg _ _ h

/-- Helper: no non-acquisition operation increases the counter. -/
lemma rlStep_counter_le (s : RateLimiterState) (op : RLOp)
    (hop : op.isCreate = false) : (rlStep s op).activeCount ≤ s.activeCount := by
  cases op with
  | create id t bw => simp [RLOp.isCreate] at hop
  | remove id =>
    simp only [rlStep, removeDownload]
    split
    · exact guardedDec_le s.activeCount
    · exact le_refl s.activeCount
  | cleanup now =>
    simp only [rlStep, cleanupOldEntries]
    exact foldl_guardedDec_le _ s.activeCount

/-- Helper: while the acquisitions performed so far cannot overflow the
32-bit counter, the counter stays between zero and its starting value
plus the number of acquisitions. -/
lemma counter_bounded_by_creates :
    ∀ (ops : List RLOp) (s : RateLimiterState),
      0 ≤ s.activeCount →
      s.activeCount + (ops.countP (fun op => op.isCreate) : ℤ) < 2147483648 →
      0 ≤ (ops.foldl rlStep s).activeCount ∧
      (ops.foldl rlStep s).activeCount ≤
        s.activeCount + (ops.countP (fun op => op.isCreate) : ℤ) := by
  intro ops
  induction ops with
  | nil =>
    intro s h _
    simpa using h
  | cons op rest ih =>
    intro s h hbound
    by_cases hc : op.isCreate = true
    · have hcount : ((op :: rest).countP (fun op => op.isCreate) : ℤ)
          = (rest.countP (fun op => op.isCreate) : ℤ) + 1 := by
        rw [List.countP_cons_of_pos _ _ hc]
        push_cast
        ring
      cases op with
      | remove id => simp [RLOp.isCreate] at hc
      | cleanup now => simp [RLOp.isCreate] at hc
      | create id t bw =>
        have hnowrap : (rlStep s (RLOp.create id t bw)).activeCount = s.activeCount + 1 := by
          simp only [rlStep, createLimitedFile]
          exact wrap32_eq_self (by omega) (by omega)
        have hrec := ih (rlStep s (RLOp.create id t bw))
          (by omega) (by rw [hnowrap]; omega)
        rw [List.foldl_cons]
        rw [hnowrap] at hrec
        omega
    · have hc' : op.isCreate = false := by
        cases hb : op.isCreate
        · rfl
        · exact absurd hb hc
      have hcount : (op :: rest).countP (fun op => op.isCreate)
          = rest.countP (fun op => op.isCreate) := List.countP_cons_of_neg _ _ (by simp [hc'])
      have hle := rlStep_counter_le s op hc'
      have hnn := rlStep_counter_nonneg s op hc' h
      have hrec := ih (rlStep s op) hnn (by rw [hcount] at hbound; omega)
      rw [List.foldl_cons]
      rw [hcount]
      push_cast at hrec hbound ⊢
      omega

/-- Helper: the exact counter value after `n` consecutive acquisitions,
including the silent 32-bit wrap of the unguarded increment. -/
lemma counter_after_creates (n : ℕ) :
    ∀ s : RateLimiterState,
      -2147483648 ≤ s.activeCount → s.activeCount < 2147483648 →
      ((List.replicate n (RLOp.create "a" 0 10)).foldl rlStep s).activeCount
        = wrap32 (s.activeCount + n) := by
  induction n with
  | zero =>
    intro s h1 h2
    simp only [List.replicate, List.foldl_nil, Nat.cast_zero, add_zero]
    exact (wrap32_eq_self h1 h2).symm
  | succ n ih =>
    intro s h1 h2
    rw [List.replicate_succ, List.foldl_cons]
    have hstep : (rlStep s (RLOp.create "a" 0 10)).activeCount
        = wrap32 (s.activeCount + 1) := rfl
    have hr1 : -2147483648 ≤ (rlStep s (RLOp.create "a" 0 10)).activeCount := by
      rw [hstep]; unfold wrap32; omega
    have hr2 : (rlStep s (RLOp.create "a" 0 10)).activeCount < 2147483648 := by
      rw [hstep]; unfold wrap32; omega
    rw [ih _ hr1 hr2, hstep]
    unfold wrap32
    push_cast
    omega

/-- C10 counterexample: the shared counter is a wrapping signed 32-bit C
int whose increment is unguarded, so a sequence of 2^31 acquisitions on a
fresh rate limiter wraps it to -2^31: the counter does go negative under
a sequence of acquire operations. -/
theorem active_count_wraps_negative :
    (rlRun (List.replicate 2147483648 (RLOp.create "a" 0 10))).activeCount
      = -2147483648 ∧
    (rlRun (List.replicate 2147483648 (RLOp.create "a" 0 10))).activeCount < 0 := by
  have h := counter_after_creates 2147483648 rlInit
    (by norm_num [rlInit]) (by norm_num [rlInit])
  have he : wrap32 ((rlInit.activeCount : ℤ) + (2147483648 : ℕ)) = -2147483648 := by
    unfold wrap32
    norm_num [rlInit]
  rw [he] at h
  exact ⟨h, by rw [rlRun, h]; norm_num⟩

/-- C10 (amended): as long as fewer than 2^31 acquisitions occur, so the
unguarded 32-bit increment never overflows, the shared active counter
stays non-negative under every sequence of acquisitions, releases and
stale sweeps; each non-overflowing acquisition adds exactly one; a
release of an untracked lease is a complete no-op; a sweep decrements at
most once per evicted stale entry; and every release or sweep step
preserves non-negativity unconditionally. -/
theorem active_count_never_negative_without_overflow :
    (∀ ops : List RLOp,
      ((ops.countP (fun op => op.isCreate)) : ℤ) < 2147483648 →
      0 ≤ (rlRun ops).activeCount) ∧
    (∀ (s : RateLimiterState) (id : String) (t bw : ℚ),
      -2147483648 ≤ s.activeCount → s.activeCount < 2147483647 →
      (createLimitedFile s id t bw).activeCount = s.activeCount + 1) ∧
    (∀ (s : RateLimiterState) (id : String),
      id ∉ s.localActiveDownloads.map Prod.fst → removeDownload s id = s) ∧
    (∀ (s : RateLimiterState) (now : ℚ),
      s.activeCount - (cleanupOldEntries s now).activeCount ≤
        ((s.localActiveDownloads.filter (fun p => decide (3600 < now - p.2))).length : ℤ)) ∧
    (∀ (s : RateLimiterState) (op : RLOp), op.isCreate = false →
      0 ≤ s.activeCount → 0 ≤ (rlStep s op).activeCount) := by
  refine ⟨?_, ?_, ?_, ?_, rlStep_counter_nonneg⟩
  · intro ops hbound
    have h := counter_bounded_by_creates ops rlInit (by simp [rlInit])
      (by simp only [rlInit]; omega)
    exact h.1
  · intro s id t bw h1 h2
    simp only [createLimitedFile]
    exact wrap32_eq_self (by omega) (by omega)
  · intro s id h
    simp [removeDownload, h]
  · intro s now
    have h := foldl_guardedDec_ge
      (s.localActiveDownloads.filter (fun p => decide (3600 < now - p.2))) s.activeCount
    simp only [cleanupOldEntries]
    omega

/-- C10 witness: a concrete acquire, double release and sweep leave the
counter non-negative; an acquire on the fresh limiter moves the counter
to one; releasing an untracked lease changes nothing. -/
theorem active_count_never_negative_without_overflow_witness :
    0 ≤ (rlRun [RLOp.create "a" 0 10, RLOp.remove "a", RLOp.remove "a",
      RLOp.cleanup 9999]).activeCount ∧
    (createLimitedFile rlInit "a" 0 10).activeCount = rlInit.activeCount + 1 ∧
    removeDownload rlInit "b" = rlInit := by
  have h := active_count_never_negative_without_overflow
  exact ⟨h.1 _ (by decide),
    h.2.1 rlInit "a" 0 10 (by norm_num [rlInit]) (by norm_num [rlInit]),
    h.2.2.1 rlInit "b" (by simp [rlInit])⟩

/-! ## Theorems: chunked fetcher -/

/-- Helper: one unfolding of the retry loop. -/
lemma connectAux_succ (att : Nat → AttemptOutcome) (r fuel : Nat) :
    connectAux att r (fuel + 1) =
      if isOk200 (att r) then { attemptsMade := r + 1, sleeps := [], success := true }
      else
        { attemptsMade := (connectAux att (r + 1) fuel).attemptsMade,
          sleeps := (if r + 1 < 5 then [5 * (r + 1)] else [])
            ++ (connectAux att (r + 1) fuel).sleeps,
          success := (connectAux att (r + 1) fuel).success } := rfl

/-- Helper: unfolding at each concrete fuel value used by the loop. -/
lemma connectAux_zero (att : Nat → AttemptOutcome) (r : Nat) :
    connectAux att r 0 = { attemptsMade := 5, sleeps := [], success := false } := rfl

lemma connectAux_one (att : Nat → AttemptOutcome) (r : Nat) :
    connectAux att r 1 =
      if isOk200 (att r) then { attemptsMade := r + 1, sleeps := [], success := true }
      else
        { attemptsMade := (connectAux att (r + 1) 0).attemptsMade,
          sleeps := (if r + 1 < 5 then [5 * (r + 1)] else [])
            ++ (connectAux att (r + 1) 0).sleeps,
          success := (connectAux att (r + 1) 0).success } := rfl

lemma connectAux_two (att : Nat → AttemptOutcome) (r : Nat) :
    connectAux att r 2 =
      if isOk200 (att r) then { attemptsMade := r + 1, sleeps := [], success := true }
      else
        { attemptsMade := (connectAux att (r + 1) 1).attemptsMade,
          sleeps := (if r + 1 < 5 then [5 * (r + 1)] else [])
            ++ (connectAux att (r + 1) 1).sleeps,
          success := (connectAux att (r + 1) 1).success } := rfl

lemma connectAux_three (att : Nat → AttemptOutcome) (r : Nat) :
    connectAux att r 3 =
      if isOk200 (att r) then { attemptsMade := r + 1, sleeps := [], success := true }
      else
        { attemptsMade := (connectAux att (r + 1) 2).attemptsMade,
          sleeps := (if r + 1 < 5 then [5 * (r + 1)] else [])
            ++ (connectAux att (r + 1) 2).sleeps,
          success := (connectAux att (r + 1) 2).success } := rfl

lemma connectAux_four (att : Nat → AttemptOutcome) (r : Nat) :
    connectAux att r 4 =
      if isOk200 (att r) then { attemptsMade := r + 1, sleeps := [], success := true }
      else
        { attemptsMade := (connectAux att (r + 1) 3).attemptsMade,
          sleeps := (if r + 1 < 5 then [5 * (r + 1)] else [])
            ++ (connectAux att (r + 1) 3).sleeps,
          success := (connectAux att (r + 1) 3).success } := rfl

lemma connectAux_five (att : Nat → AttemptOutcome) (r : Nat) :
    connectAux att r 5 =
      if isOk200 (att r) then { attemptsMade := r + 1, sleeps := [], success := true }
      else
        { attemptsMade := (connectAux att (r + 1) 4).attemptsMade,
          sleeps := (if r + 1 < 5 then [5 * (r + 1)] else [])
            ++ (connectAux att (r + 1) 4).sleeps,
          success := (connectAux att (r + 1) 4).success } := rfl

/-- Helper: when all five attempts fail, the loop makes exactly five
attempts, sleeps 5, 10, 15 and 20 seconds between them, and gives up. -/
lemma connectLoop_allFail (att : Nat → AttemptOutcome)
    (h : ∀ k, k < 5 → isOk200 (att k) = false) :
    connectLoop att = { attemptsMade := 5, sleeps := [5, 10, 15, 20], success := false } := by
  have h0 := h 0 (by norm_num)
  have h1 := h 1 (by norm_num)
  have h2 := h 2 (by norm_num)
  have h3 := h 3 (by norm_num)
  have h4 := h 4 (by norm_num)
  simp [connectLoop, connectAux_five, connectAux_four, connectAux_three, connectAux_two,
    connectAux_one, connectAux_zero, h0, h1, h2, h3, h4]

/-- Helper: when attempt `k` is the first to return 200, the loop makes
`k + 1` attempts with linearly growing sleeps and succeeds. -/
lemma connectLoop_firstOk (att : Nat → AttemptOutcome) (k : Nat) (hk : k < 5)
    (hok : isOk200 (att k) = true) (hprev : ∀ j, j < k → isOk200 (att j) = false) :
    connectLoop att
      = { attemptsMade := k + 1,
          sleeps := (List.range k).map (fun i => 5 * (i + 1)), success := true } := by
  interval_cases k
  · simp [connectLoop, connectAux_five, hok]
  · have p0 := hprev 0 (by norm_num)
    simp [connectLoop, connectAux_five, connectAux_four, p0, hok, List.range_succ]
  · have p0 := hprev 0 (by norm_num)
    have p1 := hprev 1 (by norm_num)
    simp [connectLoop, connectAux_five, connectAux_four, connectAux_three, p0, p1, hok,
      List.range_succ]
  · have p0 := hprev 0 (by norm_num)
    have p1 := hprev 1 (by norm_num)
    have p2 := hprev 2 (by norm_num)
    simp [connectLoop, connectAux_five, connectAux_four, connectAux_three, connectAux_two,
      p0, p1, p2, hok, List.range_succ]
  · have p0 := hprev 0 (by norm_num)
    have p1 := hprev 1 (by norm_num)
    have p2 := hprev 2 (by norm_num)
    have p3 := hprev 3 (by norm_num)
    simp [connectLoop, connectAux_five, connectAux_four, connectAux_three, connectAux_two,
      connectAux_one, p0, p1, p2, p3, hok, List.range_succ]

/-- C7 counterexample to the backoff shape: with every attempt failing,
the sleeps are 5, 10, 15, 20 seconds, which is linear growth, not
exponential: no geometric sequence matches it. -/
theorem fetch_backoff_not_exponential :
    (connectLoop (fun _ => AttemptOutcome.netError "connection refused")).sleeps
      = [5, 10, 15, 20] ∧
    ¬ ∃ b r : ℚ, ∀ i : Nat, i < 4 →
      (((connectLoop (fun _ => AttemptOutcome.netError "connection refused")).sleeps.getD i 0 : ℚ))
        = b * r ^ i := by
  have hs : (connectLoop (fun _ => AttemptOutcome.netError "connection refused")).sleeps
      = [5, 10, 15, 20] :=
    congrArg ConnectResult.sleeps
      (connectLoop_allFail (fun _ => AttemptOutcome.netError "connection refused")
        (fun k _ => rfl))
  refine ⟨hs, ?_⟩
  rintro ⟨b, r, hgeo⟩
  have e0 := hgeo 0 (by norm_num)
  have e1 := hgeo 1 (by norm_num)
  have e2 := hgeo 2 (by norm_num)
  rw [hs] at e0 e1 e2
  norm_num [List.getD] at e0 e1 e2
  have hb : b = 5 := by linarith
  rw [hb] at e1 e2
  have hr : r = 2 := by linarith
  rw [hr] at e2
  norm_num at e2

/-- C7 (amended): any network error or non-200 response causes a retry
with linearly increasing backoff (5 seconds times the number of failures
so far), up to a fixed ceiling of 5 attempts; the fetch succeeds at the
first attempt that returns 200 and gives up, with a terminal error, only
after the 5th failed attempt. -/
theorem fetch_retry_ceiling (att : Nat → AttemptOutcome) :
    ((∀ k, k < 5 → isOk200 (att k) = false) →
        connectLoop att = { attemptsMade := 5, sleeps := [5, 10, 15, 20], success := false }) ∧
    (∀ k, k < 5 → isOk200 (att k) = true → (∀ j, j < k → isOk200 (att j) = false) →
        connectLoop att
          = { attemptsMade := k + 1,
              sleeps := (List.range k).map (fun i => 5 * (i + 1)), success := true }) :=
  ⟨connectLoop_allFail att, fun k hk hok hprev => connectLoop_firstOk att k hk hok hprev⟩

/-- C7 witness: five straight network errors exhaust the ceiling; a
single failure followed by a 200 retries once after a 5 second sleep. -/
theorem fetch_retry_ceiling_witness :
    connectLoop (fun _ => AttemptOutcome.netError "refused")
      = { attemptsMade := 5, sleeps := [5, 10, 15, 20], success := false } ∧
    connectLoop (fun n => if n = 0 then AttemptOutcome.netError "refused"
        else AttemptOutcome.status 200)
      = { attemptsMade := 2, sleeps := [5], success := true } := by
  constructor
  · exact (fetch_retry_ceiling (fun _ => AttemptOutcome.netError "refused")).1 (fun k _ => rfl)
  · have h := (fetch_retry_ceiling
      (fun n => if n = 0 then AttemptOutcome.netError "refused"
        else AttemptOutcome.status 200)).2 1 (by norm_num) (by decide) (by decide)
    simpa using h

/-- C3: after the byte stream completes, the fetcher recomputes the
checksum of the local file; on a mismatch the partial file is not kept,
the mirror reports error with a message naming the expected and computed
digests and both sizes, and the local catalog is untouched; on a match
the mirror reports synced and writes its local catalog row with the job
metadata and status approved. -/
theorem perform_sync_checksum_verification (md5hex : List Nat → String) (jobFileId : Nat)
    (jobFilename declaredMd5 : String) (declaredSize : Nat) (localBytes : List Nat)
    (prevCatalog : Option LocalUploadRec) :
    (md5hex localBytes ≠ declaredMd5 →
      (syncVerify md5hex jobFileId jobFilename declaredMd5 declaredSize localBytes
          prevCatalog).fileKept = false ∧
      (syncVerify md5hex jobFileId jobFilename declaredMd5 declaredSize localBytes
          prevCatalog).reported = ReportStatus.reportError
        ("MD5 mismatch. Expected: " ++ declaredMd5 ++ ", Got: " ++ md5hex localBytes ++
         ". Expected Size: " ++ toString declaredSize ++
         ", Got Size: " ++ toString localBytes.length) ∧
      (syncVerify md5hex jobFileId jobFilename declaredMd5 declaredSize localBytes
          prevCatalog).localCatalog = prevCatalog) ∧
    (md5hex localBytes = declaredMd5 →
      (syncVerify md5hex jobFileId jobFilename declaredMd5 declaredSize localBytes
          prevCatalog).reported = ReportStatus.reportSynced ∧
      (syncVerify md5hex jobFileId jobFilename declaredMd5 declaredSize localBytes
          prevCatalog).fileKept = true ∧
      (syncVerify md5hex jobFileId jobFilename declaredMd5 declaredSize localBytes
          prevCatalog).localCatalog = some
        { fileId := jobFileId, filename := jobFilename, md5Hash := declaredMd5,
          fileSize := declaredSize, uploadStatus := "approved" }) := by
  constructor
  · intro h
    simp [syncVerify, h]
  · intro h
    simp [syncVerify, h]

/-- C3 witness: with a toy digest function returning the byte count, a
matching job reports synced and records the catalog row; a mismatching
job drops the file and reports the mismatch. -/
theorem perform_sync_checksum_verification_witness :
    (syncVerify (fun bs => toString bs.length) 7 "f.zip" "2" 2 [9, 9] none).reported
      = ReportStatus.reportSynced ∧
    (syncVerify (fun bs => toString bs.length) 7 "f.zip" "3" 3 [9, 9] none).fileKept
      = false := by
  constructor
  · exact ((perform_sync_checksum_verification (fun bs => toString bs.length) 7 "f.zip" "2" 2
      [9, 9] none).2 (by decide)).1
  · exact ((perform_sync_checksum_verification (fun bs => toString bs.length) 7 "f.zip" "3" 3
      [9, 9] none).1 (by decide)).1

/-! ## Theorems: chunked upload assembler -/

/-- C4: evaluation of the registered upload-complete route on a completed
chunked upload whose computed checksum equals the checksum of an existing
pending catalog entry: the route accepts the upload, keeps the assembled
bytes, and appends a second pending record with the identical checksum
and no rejection reason, because the registered second definition of
complete_chunked_upload carries no duplicate check; the unregistered
first definition, evaluated on the same input, performs exactly the
rejection the specification describes. -/
theorem duplicate_chunked_upload_not_rejected :
    (completeChunkedUpload (fun bs => toString bs.length)
        [{ filename := "a.zip", originalFilename := "orig.zip", fileSize := 2,
           md5Hash := "2", uploadStatus := UploadStatus.pending, rejectionReason := none }]
        { dirExists := true, chunks := [(0, [9, 9])] } 1 "orig2.zip" "b.zip" "").response
      = CompleteResponse.accepted "b.zip" ∧
    (completeChunkedUpload (fun bs => toString bs.length)
        [{ filename := "a.zip", originalFilename := "orig.zip", fileSize := 2,
           md5Hash := "2", uploadStatus := UploadStatus.pending, rejectionReason := none }]
        { dirExists := true, chunks := [(0, [9, 9])] } 1 "orig2.zip" "b.zip" "").assembledFileKept
      = true ∧
    ((completeChunkedUpload (fun bs => toString bs.length)
        [{ filename := "a.zip", originalFilename := "orig.zip", fileSize := 2,
           md5Hash := "2", uploadStatus := UploadStatus.pending, rejectionReason := none }]
        { dirExists := true, chunks := [(0, [9, 9])] } 1 "orig2.zip" "b.zip" "").catalog.map
          (fun u => (u.md5Hash, u.uploadStatus, u.rejectionReason)))
      = [("2", UploadStatus.pending, none), ("2", UploadStatus.pending, none)] ∧
    (processUploadAsync (fun bs => toString bs.length)
        [{ filename := "a.zip", originalFilename := "orig.zip", fileSize := 2,
           md5Hash := "2", uploadStatus := UploadStatus.pending, rejectionReason := none }]
        { dirExists := true, chunks := [(0, [9, 9])] } 1 "orig2.zip" "b.zip" "").response
      = CompleteResponse.duplicateRejected ∧
    (processUploadAsync (fun bs => toString bs.length)
        [{ filename := "a.zip", originalFilename := "orig.zip", fileSize := 2,
           md5Hash := "2", uploadStatus := UploadStatus.pending, rejectionReason := none }]
        { dirExists := true, chunks := [(0, [9, 9])] } 1 "orig2.zip" "b.zip" "").assembledFileKept
      = false := by
  refine ⟨?_, ?_, ?_, ?_, ?_⟩ <;> decide

/-- C8: evaluation of the registered upload-complete route on a valid
completed session: it performs the assembly synchronously and returns
the terminal result in the same response, writing no status file at all,
so the status poll answers processing; the at-most-once consumption the
specification describes is implemented by the poll endpoint (it answers
a recorded result and clears it, and answers processing on the next
call), but only the unregistered asynchronous definition ever records a
result for it. -/
theorem upload_complete_synchronous_no_status_file :
    (completeChunkedUpload (fun bs => toString bs.length) []
        { dirExists := true, chunks := [(0, [9, 9])] } 1 "orig.zip" "b.zip" "").response
      = CompleteResponse.accepted "b.zip" ∧
    (completeChunkedUpload (fun bs => toString bs.length) []
        { dirExists := true, chunks := [(0, [9, 9])] } 1 "orig.zip" "b.zip" "").statusFileWritten
      = none ∧
    uploadStatusPoll (completeChunkedUpload (fun bs => toString bs.length) []
        { dirExists := true, chunks := [(0, [9, 9])] } 1 "orig.zip" "b.zip" "").statusFileWritten
      = (PollResponse.processing, none) ∧
    uploadStatusPoll (some (CompleteResponse.accepted "b.zip"))
      = (PollResponse.result (CompleteResponse.accepted "b.zip"), none) ∧
    uploadStatusPoll none = (PollResponse.processing, none) ∧
    (processUploadAsync (fun bs => toString bs.length) []
        { dirExists := true, chunks := [(0, [9, 9])] } 1 "orig.zip" "b.zip" "").statusFileWritten
      = some (CompleteResponse.accepted "b.zip") := by
  refine ⟨?_, ?_, ?_, ?_, ?_, ?_⟩ <;> decide

/-- C5 counterexample: on a session for which no fragment at all has been
received (so the staging directory was never created), complete fails
with the chunks-not-found error, not with a missing-fragments error
naming the missing indices. -/
theorem complete_without_fragments_not_missing_error :
    (completeChunkedUpload (fun _ => "") [] emptySession 5 "orig.zip" "b.zip" "").response
      = CompleteResponse.chunksNotFound ∧
    (completeChunkedUpload (fun _ => "") [] emptySession 5 "orig.zip" "b.zip" "").response
      ≠ CompleteResponse.missingChunksError [0, 1, 2, 3, 4] := by
  exact ⟨by decide, by decide⟩

/-- C5 (amended): provided at least one fragment has been received (so
the staging directory exists), a complete call with any declared index
missing fails with a missing-fragments error naming exactly the indices
below the declared fragment count whose fragment is absent; no catalog
record is created, no assembled file is produced, no status is recorded,
and the received fragments are left untouched. -/
theorem complete_missing_fragments (md5hex : List Nat → String) (catalog : List UploadRec)
    (s : ChunkSession) (totalChunks : Nat) (origFn uniqFn fileHash : String)
    (hdir : s.dirExists = true) (hmiss : missingChunks s totalChunks ≠ []) :
    completeChunkedUpload md5hex catalog s totalChunks origFn uniqFn fileHash
      = { response := CompleteResponse.missingChunksError (missingChunks s totalChunks),
          catalog := catalog, session := s, assembledFileKept := false,
          statusFileWritten := none } ∧
    (∀ i : Nat, i ∈ missingChunks s totalChunks ↔
      i < totalChunks ∧ (s.chunks.map Prod.fst).contains i = false) := by
  constructor
  · simp [completeChunkedUpload, hdir, hmiss]
  · intro i
    simp [missingChunks, List.mem_filter, List.mem_range]

/-- C5 witness: a session holding fragments 0, 1, 2 of 5 declared fails
with a missing-fragments error naming exactly 3 and 4, leaving catalog
and fragments untouched. -/
theorem complete_missing_fragments_witness :
    completeChunkedUpload (fun _ => "") []
        { dirExists := true, chunks := [(0, [1]), (1, [2]), (2, [3])] } 5 "o.zip" "u.zip" ""
      = { response := CompleteResponse.missingChunksError [3, 4], catalog := [],
          session := { dirExists := true, chunks := [(0, [1]), (1, [2]), (2, [3])] },
          assembledFileKept := false, statusFileWritten := none } := by
  have h := (complete_missing_fragments (fun _ => "") []
    { dirExists := true, chunks := [(0, [1]), (1, [2]), (2, [3])] } 5 "o.zip" "u.zip" ""
    rfl (by decide)).1
  have e : missingChunks
      { dirExists := true, chunks := [(0, [1]), (1, [2]), (2, [3])] } 5 = [3, 4] := by decide
  rw [e] at h
  exact h

end AFHArchive
